import Mathlib

/-!
Shallow embedding of podhawk (`code.py`), a tool that keeps container
images and containers up to date: it pulls tracked images, detects which
changed, and for each running container based on a changed image it
recreates the container from its inspected configuration, validates the
replacement with a bounded healthcheck loop, and then either commits
(remove the old container) or rolls back (stop the new one, restart the
old one).

Pure string-processing functions (`format_envs_cli`,
`format_network_ports_cli`, `format_mounts_cli`, `format_restart_cli`,
`containers_to_recreate`, `update_img`, command-line assembly in
`inspect_container`) are translated directly. Effectful functions
(`health_check`, `post_healthcheck`, `recreate_container`) are embedded
against an explicit runtime oracle (`Runtime`) and produce the list of
runtime commands they issue (`Cmd`), so that the engine's decisions are
visible as data.
-/

/-- Python's substring test `needle in hay`. -/
def strContains (hay needle : String) : Bool :=
  hay.toList.tails.any (fun t => List.isPrefixOf needle.toList t)

/-- Python's `str.rstrip()`: drop trailing whitespace. -/
def rstrip (s : String) : String :=
  String.mk ((s.data.reverse.dropWhile Char.isWhitespace).reverse)

/-- One entry of `inspect_json['Mounts']`. -/
structure Mount where
  Source : String
  Destination : String
deriving DecidableEq

/-- One entry of `inspect_json['NetworkSettings']['Ports']`. -/
structure NetworkPort where
  hostIP : String
  hostPort : String
  containerPort : String
deriving DecidableEq

/-- `inspect_json['HostConfig']['RestartPolicy']`. -/
structure RestartPolicyInfo where
  Name : String
deriving DecidableEq

/-- The fields of `podman inspect` output that `inspect_container` reads. -/
structure InspectData where
  Mounts : List Mount
  Ports : List NetworkPort
  Env : List String
  RestartPolicy : RestartPolicyInfo
  Args : List String
deriving DecidableEq

/-- The tuple of prefixes `added_automatically` in `format_envs_cli`. -/
def added_automatically : List String :=
  ["PATH=", "TERM=", "HOSTNAME=", "container=", "GODEBUG=", "XDG_CACHE_HOME=", "HOME="]

/-- The loop `for prefix in added_automatically: envs_to_remove = [env for env
in envs_data if prefix in env]` — each iteration REASSIGNS `envs_to_remove`,
so only the last prefix's matches survive; modelled by a fold whose step
ignores the accumulator, exactly as the source reassigns. -/
def compute_envs_to_remove (envs_data : List String) : List String :=
  added_automatically.foldl
    (fun _ pfx => envs_data.filter (fun env => strContains env pfx)) []

/-- The removal stage of `format_envs_cli`: `for env in envs_to_remove:
envs_data.remove(env)` — repeated first-occurrence removal. -/
def envFilter (envs_data : List String) : List String :=
  (compute_envs_to_remove envs_data).foldl (fun acc env => acc.erase env) envs_data

/-- `format_envs_cli` from code.py. -/
def format_envs_cli (envs_data : List String) : String :=
  if envs_data.length > 0 then
    String.intercalate " " ((envFilter envs_data).map (fun env => "-e " ++ env))
  else ""

/-- `format_network_ports_cli` from code.py (the per-port conditional append). -/
def format_network_ports_cli (network_data : List NetworkPort) : String :=
  if network_data.length > 0 then
    String.intercalate " " (network_data.map (fun port =>
      if port.hostIP.length > 0 then
        "-p " ++ port.hostIP ++ ":" ++ port.hostPort ++ ":" ++ port.containerPort
      else
        "-p " ++ port.hostPort ++ ":" ++ port.containerPort))
  else ""

/-- `format_mounts_cli` from code.py. -/
def format_mounts_cli (mounts_data : List Mount) : String :=
  if mounts_data.length > 0 then
    String.intercalate " " (mounts_data.map (fun mount =>
      "-v " ++ mount.Source ++ ":" ++ mount.Destination))
  else ""

/-- `format_restart_cli` from code.py. -/
def format_restart_cli (restart_data : RestartPolicyInfo) : String :=
  if restart_data.Name.length > 0 then "--restart=" ++ restart_data.Name else ""

/-- The command line built for one container in `inspect_container`:
`f'{cli_mounts} {cli_envs} {cli_network_ports} {cli_restart_policy}
{ctn_image} {cli_args}'`. -/
def container_cli (ctn_image : String) (inspect_json : InspectData) : String :=
  let cli_restart_policy := format_restart_cli inspect_json.RestartPolicy
  let cli_mounts := format_mounts_cli inspect_json.Mounts
  let cli_network_ports := format_network_ports_cli inspect_json.Ports
  let cli_envs := format_envs_cli inspect_json.Env
  let cli_args := String.intercalate " " inspect_json.Args
  cli_mounts ++ " " ++ cli_envs ++ " " ++ cli_network_ports ++ " " ++
    cli_restart_policy ++ " " ++ ctn_image ++ " " ++ cli_args

/-- `inspect_container` from code.py, with the `podman inspect` query
abstracted as an oracle from container id to the parsed JSON fields. -/
def inspect_container (inspect : String → InspectData)
    (containers_list : List (String × String)) : List (String × String) :=
  containers_list.map (fun ctn => (ctn.1, container_cli ctn.2 (inspect ctn.1)))

/-- `containers_to_recreate` from code.py: keep the containers whose image
is in the updated list. -/
def containers_to_recreate (containers_list : List (String × String))
    (images_updated : List String) : List (String × String) :=
  containers_list.filter (fun container => images_updated.contains container.2)

/-- `update_img` from code.py, with `podman pull -q` abstracted as an oracle
from image name/tag to the raw stdout text. -/
def update_img (pull : String → String) (data : List (String × String)) : List String :=
  List.foldl
    (fun updated img =>
      if rstrip (pull img.2) != img.1 then updated ++ [img.2] else updated)
    [] data

/-- A podman command issued by the engine, recorded with its exact argument
strings. -/
inductive Cmd where
  | stop (id : String)
  | runD (cli : String)
  | health (id : String) (attempt : Nat)
  | start (id : String)
  | rm (id : String)
deriving DecidableEq

/-- Oracle for the container runtime's observable behaviour: what each
podman invocation prints. `runOut` is `none` when `podman run -d` exits
non-zero, in which case `check_output` raises `CalledProcessError`. -/
structure Runtime where
  stopOut : String → String
  runOut : String → Option String
  healthOut : String → Nat → String
  startOut : String → String
  rmOut : String → String

/-- `remove_old_container` from code.py: issues `podman rm old_ctn_id`. -/
def remove_old_container (old_ctn_id : String) : List Cmd :=
  [Cmd.rm old_ctn_id]

/-- `post_healthcheck` from code.py: on `'NA' in status` or `'true' in
status` remove the old container; otherwise stop the new container and
start the old one again. Returns the commands issued. -/
def post_healthcheck (old_ctn_id new_ctn_id status : String) : List Cmd :=
  if strContains status "NA" then
    remove_old_container old_ctn_id
  else if strContains status "true" then
    remove_old_container old_ctn_id
  else
    [Cmd.stop new_ctn_id, Cmd.start old_ctn_id]

/-- The `for i in range(3)` loop of `health_check`, with the remaining
iteration count explicit. Returns the final status string and the
healthcheck commands issued. -/
def health_check_go (R : Runtime) (container_id : String) (i fuel : Nat)
    (status : String) : String × List Cmd :=
  match fuel with
  | 0 => (status, [])
  | Nat.succ f =>
    let output := R.healthOut container_id i
    if strContains output "has no defined healthcheck" then
      ("NA", [Cmd.health container_id i])
    else
      let r := health_check_go R container_id (i + 1) f
        (if strContains output "unhealthy" then "false" else "true")
      (r.1, Cmd.health container_id i :: r.2)

/-- `health_check` from code.py: `status = 'false'`, then up to 3 probes. -/
def health_check (R : Runtime) (container_id : String) : String × List Cmd :=
  health_check_go R container_id 0 3 "false"

/-- The body of `recreate_container`'s loop for one `(old_ctn_id,
new_ctn_cli)` element: stop the old container, `podman run -d` the new
command line, then healthcheck and decide. The Bool is `false` when
`check_output` raised (start failure), which aborts the loop. -/
def recreate_one (R : Runtime) (element : String × String) : List Cmd × Bool :=
  let old_ctn_id := element.1
  let new_ctn_cli := element.2
  match R.runOut new_ctn_cli with
  | none => ([Cmd.stop old_ctn_id, Cmd.runD new_ctn_cli], false)
  | some start_new =>
    let hc := health_check R (String.take start_new 12)
    let post := post_healthcheck (String.take old_ctn_id 12)
      (String.take start_new 12) hc.1
    (Cmd.stop old_ctn_id :: Cmd.runD new_ctn_cli :: (hc.2 ++ post), true)

/-- `recreate_container` from code.py: process the elements in order; an
uncaught `CalledProcessError` from `check_output` terminates the whole
loop, leaving the remaining elements unprocessed. -/
def recreate_container (R : Runtime) : List (String × String) → List Cmd × Bool
  | [] => ([], true)
  | e :: rest =>
    let r := recreate_one R e
    if r.2 then
      let rr := recreate_container R rest
      (r.1 ++ rr.1, rr.2)
    else
      (r.1, false)

/-- Runtime whose `podman run -d` always fails (non-zero exit). -/
def failingStartRuntime : Runtime where
  stopOut := fun _ => ""
  runOut := fun _ => none
  healthOut := fun _ _ => ""
  startOut := fun _ => ""
  rmOut := fun _ => ""

/-- Runtime whose healthcheck probes report unhealthy twice, then healthy. -/
def flakyHealthRuntime : Runtime where
  stopOut := fun _ => ""
  runOut := fun _ => some "0123456789abcdef\n"
  healthOut := fun _ i => if i ≤ 1 then "unhealthy" else "healthy"
  startOut := fun _ => ""
  rmOut := fun _ => ""

/-- Runtime with long container ids and always-healthy probes. -/
def healthyRuntime : Runtime where
  stopOut := fun _ => ""
  runOut := fun _ => some "fedcba9876543210aa\n"
  healthOut := fun _ _ => "healthy"
  startOut := fun _ => ""
  rmOut := fun _ => ""

/-! ## Helper lemmas -/

theorem foldl_erase_cons {ws l : List String} {a : String}
    (h : ∀ w ∈ ws, w ≠ a) :
    ws.foldl (fun acc env => acc.erase env) (a :: l) =
      a :: ws.foldl (fun acc env => acc.erase env) l := by
  induction ws generalizing l with
  | nil => rfl
  | cons w ws ih =>
    have hw : (a == w) = false :=
      beq_eq_false_iff_ne.mpr (Ne.symm (h w (List.mem_cons_self w ws)))
    simp only [List.foldl_cons, List.erase_cons, hw]
    exact ih (fun w' hw' => h w' (List.mem_cons_of_mem w hw'))

theorem foldl_erase_filter (q : String → Bool) (l : List String) :
    (l.filter q).foldl (fun acc env => acc.erase env) l =
      l.filter (fun e => ! q e) := by
  induction l with
  | nil => rfl
  | cons a t ih =>
    by_cases hq : q a = true
    · rw [List.filter_cons_of_pos hq]
      simp only [List.foldl_cons, List.erase_cons_head]
      rw [ih, List.filter_cons_of_neg]
      simp [hq]
    · have hq' : q a = false := by simpa using hq
      rw [List.filter_cons_of_neg (by simp [hq'])]
      rw [foldl_erase_cons (fun w hw => ?_), ih, List.filter_cons_of_pos (by simp [hq'])]
      intro he
      subst he
      exact hq (List.of_mem_filter hw)

theorem envFilter_eq (l : List String) :
    envFilter l = l.filter (fun e => ! strContains e "HOME=") := by
  show (compute_envs_to_remove l).foldl (fun acc env => acc.erase env) l = _
  have h : compute_envs_to_remove l = l.filter (fun env => strContains env "HOME=") := rfl
  rw [h]
  exact foldl_erase_filter _ l

theorem format_envs_cli_eq (l : List String) :
    format_envs_cli l =
      String.intercalate " " ((envFilter l).map (fun env => "-e " ++ env)) := by
  cases l with
  | nil => rfl
  | cons a t => simp [format_envs_cli]

theorem count_filter_ite {α : Type} [BEq α] [LawfulBEq α] (p : α → Bool) (a : α)
    (l : List α) :
    (l.filter p).count a = if p a then l.count a else 0 := by
  by_cases h : p a = true
  · rw [if_pos h]
    exact List.count_filter h
  · rw [if_neg h]
    refine List.count_eq_zero.mpr ?_
    intro hmem
    exact h (List.of_mem_filter hmem)

theorem update_img_foldl (pull : String → String) (data : List (String × String))
    (acc : List String) :
    List.foldl
      (fun updated img =>
        if rstrip (pull img.2) != img.1 then updated ++ [img.2] else updated)
      acc data =
      acc ++ (data.filter (fun img => rstrip (pull img.2) != img.1)).map Prod.snd := by
  induction data generalizing acc with
  | nil => simp
  | cons a t ih =>
    simp only [List.foldl_cons, List.filter_cons]
    by_cases h : (rstrip (pull a.2) != a.1) = true
    · rw [if_pos h, if_pos h, ih]
      simp
    · rw [if_neg h, if_neg h, ih]

/-! ## Claims -/

/-- C1 (code bug): the claim says every variable whose key is one of PATH,
TERM, HOSTNAME, container, GODEBUG, XDG_CACHE_HOME, HOME is removed. The
loop in `format_envs_cli` reassigns `envs_to_remove` on every prefix
instead of accumulating, so only the matches of the last prefix `HOME=`
are removed: a `PATH` variable survives and is rendered, while a `HOME`
variable is removed. -/
theorem format_envs_cli_keeps_path :
    format_envs_cli ["PATH=/usr/bin"] = "-e PATH=/usr/bin" ∧
    format_envs_cli ["HOME=/root"] = "" ∧
    format_envs_cli ["PATH=/usr/bin", "TERM=xterm", "HOSTNAME=h", "container=podman",
      "GODEBUG=x", "XDG_CACHE_HOME=/c", "HOME=/root", "FOO=bar"] =
      "-e PATH=/usr/bin -e TERM=xterm -e HOSTNAME=h -e container=podman " ++
        "-e GODEBUG=x -e FOO=bar" := by
  refine ⟨by decide, by decide, by decide⟩

/-- C9: the env filtering implemented by `format_envs_cli` is idempotent —
filtering an already-filtered list leaves it unchanged, and the rendered
`-e` command line is the same after a second filtering pass. -/
theorem format_envs_cli_idempotent (l : List String) :
    envFilter (envFilter l) = envFilter l ∧
    format_envs_cli (envFilter l) = format_envs_cli l := by
  have hfix : envFilter (envFilter l) = envFilter l := by
    rw [envFilter_eq l, envFilter_eq, List.filter_filter]
    simp
  refine ⟨hfix, ?_⟩
  rw [format_envs_cli_eq (envFilter l), format_envs_cli_eq l, hfix]

/-- C5: `containers_to_recreate` is a pure, order-preserving filter: its
result is a sublist of the input containers, it contains exactly the
snapshots whose image is in the updated list (counted with multiplicity),
and on the spec's example it returns the first and third containers. -/
theorem containers_to_recreate_spec (cl : List (String × String))
    (iu : List String) :
    List.Sublist (containers_to_recreate cl iu) cl ∧
    (∀ c : String × String,
      (containers_to_recreate cl iu).count c =
        if iu.contains c.2 then cl.count c else 0) ∧
    containers_to_recreate [("A", "img1"), ("B", "img2"), ("C", "img1")] ["img1"] =
      [("A", "img1"), ("C", "img1")] := by
  refine ⟨List.filter_sublist cl, fun c => count_filter_ite _ c cl, by decide⟩

/-- C6: `update_img` returns, in input order, exactly the name/tags of the
images whose pulled (and right-stripped) output differs from the recorded
image id; an image whose pull output equals the recorded id is not
reported. -/
theorem update_img_spec (pull : String → String) (data : List (String × String)) :
    update_img pull data =
      (data.filter (fun img => rstrip (pull img.2) != img.1)).map Prod.snd ∧
    List.Sublist (update_img pull data) (data.map Prod.snd) := by
  have h : update_img pull data =
      (data.filter (fun img => rstrip (pull img.2) != img.1)).map Prod.snd := by
    simpa [update_img] using update_img_foldl pull data []
  refine ⟨h, ?_⟩
  rw [h]
  exact List.Sublist.map Prod.snd (List.filter_sublist data)

theorem string_length_pos_of_ne (s : String) (h : s ≠ "") : 0 < s.length := by
  cases s with
  | mk l =>
    cases l with
    | nil => exact absurd rfl h
    | cons c cs => simp [String.length]

/-- C4: with the three verdict strings `health_check` can produce, the
decision of `post_healthcheck` is: `NA` and `true` commit by removing the
old container (and touch the new one in no way), while `false` rolls back
by stopping the new container (without removing it) and then starting the
old one again. -/
theorem post_healthcheck_decision (oid nid : String) :
    post_healthcheck oid nid "NA" = [Cmd.rm oid] ∧
    post_healthcheck oid nid "true" = [Cmd.rm oid] ∧
    post_healthcheck oid nid "false" = [Cmd.stop nid, Cmd.start oid] := by
  have h1 : strContains "NA" "NA" = true := by decide
  have h2 : strContains "true" "NA" = false := by decide
  have h3 : strContains "true" "true" = true := by decide
  have h4 : strContains "false" "NA" = false := by decide
  have h5 : strContains "false" "true" = false := by decide
  refine ⟨?_, ?_, ?_⟩ <;>
    simp [post_healthcheck, remove_old_container, h1, h2, h3, h4, h5]

/-- C8: for a single port entry, `format_network_ports_cli` renders
`-p hostIP:hostPort:containerPort` when the host IP is non-empty and
`-p hostPort:containerPort` when it is empty; in particular the spec's two
examples render as `-p 8080:80` and `-p 127.0.0.1:8080:80`. -/
theorem format_network_ports_cli_spec (p : NetworkPort) :
    (p.hostIP = "" →
      format_network_ports_cli [p] = "-p " ++ p.hostPort ++ ":" ++ p.containerPort) ∧
    (p.hostIP ≠ "" →
      format_network_ports_cli [p] =
        "-p " ++ p.hostIP ++ ":" ++ p.hostPort ++ ":" ++ p.containerPort) ∧
    format_network_ports_cli [NetworkPort.mk "" "8080" "80"] = "-p 8080:80" ∧
    format_network_ports_cli [NetworkPort.mk "127.0.0.1" "8080" "80"] =
      "-p 127.0.0.1:8080:80" := by
  have key : format_network_ports_cli [p] =
      if 0 < p.hostIP.length then
        "-p " ++ p.hostIP ++ ":" ++ p.hostPort ++ ":" ++ p.containerPort
      else
        "-p " ++ p.hostPort ++ ":" ++ p.containerPort := rfl
  refine ⟨?_, ?_, by decide, by decide⟩
  · intro h
    rw [key, if_neg]
    rw [h]
    decide
  · intro h
    rw [key, if_pos (string_length_pos_of_ne _ h)]

/-- The closed witness for C8's hypotheses, at a port with a host IP. -/
theorem format_network_ports_cli_spec_witness :
    format_network_ports_cli [NetworkPort.mk "10.0.0.1" "443" "8443"] =
      "-p " ++ "10.0.0.1" ++ ":" ++ "443" ++ ":" ++ "8443" :=
  (format_network_ports_cli_spec (NetworkPort.mk "10.0.0.1" "443" "8443")).2.1
    (by decide)

theorem health_check_go_length (R : Runtime) (cid : String) :
    ∀ (fuel i : Nat) (st : String),
      (health_check_go R cid i fuel st).2.length ≤ fuel := by
  intro fuel
  induction fuel with
  | zero => intro i st; simp [health_check_go]
  | succ f ih =>
    intro i st
    cases h : strContains (R.healthOut cid i) "has no defined healthcheck" with
    | true => simp [health_check_go, h]
    | false =>
      simp only [health_check_go, h, Bool.false_eq_true, if_false, List.length_cons]
      exact Nat.succ_le_succ (ih (i + 1) _)

/-- C3: `health_check` runs at most 3 probe attempts; when no attempt's
output contains the no-defined-healthcheck sentinel, all 3 attempts run
and the verdict is the classification of the last attempt (an output
containing `unhealthy` gives `false`, anything else gives `true`); the
first attempt whose output contains the sentinel ends the loop at once
with verdict `NA`, consuming no further attempts. -/
theorem health_check_spec (R : Runtime) (cid : String) :
    (health_check R cid).2.length ≤ 3 ∧
    ((∀ j, j < 3 →
        strContains (R.healthOut cid j) "has no defined healthcheck" = false) →
      (health_check R cid).1 =
        (if strContains (R.healthOut cid 2) "unhealthy" then "false" else "true") ∧
      (health_check R cid).2.length = 3) ∧
    (∀ k, k < 3 →
      (∀ j, j < k →
        strContains (R.healthOut cid j) "has no defined healthcheck" = false) →
      strContains (R.healthOut cid k) "has no defined healthcheck" = true →
      (health_check R cid).1 = "NA" ∧ (health_check R cid).2.length = k + 1) := by
  refine ⟨health_check_go_length R cid 3 0 "false", ?_, ?_⟩
  · intro h
    have e0 := h 0 (by norm_num)
    have e1 := h 1 (by norm_num)
    have e2 := h 2 (by norm_num)
    constructor <;> simp [health_check, health_check_go, e0, e1, e2]
  · intro k hk hbefore hstop
    interval_cases k
    · constructor <;> simp [health_check, health_check_go, hstop]
    · have e0 := hbefore 0 (by norm_num)
      constructor <;> simp [health_check, health_check_go, e0, hstop]
    · have e0 := hbefore 0 (by norm_num)
      have e1 := hbefore 1 (by norm_num)
      constructor <;> simp [health_check, health_check_go, e0, e1, hstop]

/-- The closed witness for C3's hypotheses: probes that report unhealthy,
unhealthy, healthy give verdict `true` after all 3 attempts. -/
theorem health_check_spec_witness :
    (health_check flakyHealthRuntime "c").1 = "true" ∧
    (health_check flakyHealthRuntime "c").2.length = 3 := by
  have h := (health_check_spec flakyHealthRuntime "c").2.1 (by decide)
  refine ⟨?_, h.2⟩
  rw [h.1]
  decide

/-- C2 counterexample: with a runtime whose `podman run -d` always fails,
a batch of two containers stops after the first element's failed start:
the second container is never touched (not even stopped), the first
container's old instance is never started again, and the loop does not
complete — refuting the claim that the engine continues processing the
remaining containers of the batch. -/
theorem recreate_container_abort_counterexample :
    recreate_container failingStartRuntime [("o1", "c1"), ("o2", "c2")] =
      ([Cmd.stop "o1", Cmd.runD "c1"], false) ∧
    Cmd.stop "o2" ∉ (recreate_container failingStartRuntime
      [("o1", "c1"), ("o2", "c2")]).1 ∧
    Cmd.runD "c2" ∉ (recreate_container failingStartRuntime
      [("o1", "c1"), ("o2", "c2")]).1 ∧
    Cmd.start "o1" ∉ (recreate_container failingStartRuntime
      [("o1", "c1"), ("o2", "c2")]).1 := by
  refine ⟨by decide, by decide, by decide, by decide⟩

/-- C2 amended: when `podman run -d` fails for a container, the uncaught
`CalledProcessError` aborts the whole batch: the trace is exactly the stop
of that container's old instance followed by the failed run command — the
old container is left stopped (not restarted) and none of the remaining
containers is processed. -/
theorem recreate_container_start_failure (R : Runtime) (old cli : String)
    (rest : List (String × String)) (h : R.runOut cli = none) :
    recreate_container R ((old, cli) :: rest) =
      ([Cmd.stop old, Cmd.runD cli], false) := by
  simp [recreate_container, recreate_one, h]

/-- The closed witness for the amended C2, at the failing runtime. -/
theorem recreate_container_start_failure_witness :
    recreate_container failingStartRuntime [("o1", "c1"), ("o2", "c2")] =
      ([Cmd.stop "o1", Cmd.runD "c1"], false) :=
  recreate_container_start_failure failingStartRuntime "o1" "c1" [("o2", "c2")] rfl

theorem health_check_go_mem (R : Runtime) (cid : String) :
    ∀ (fuel i : Nat) (st : String) (c : Cmd),
      c ∈ (health_check_go R cid i fuel st).2 → ∃ j, c = Cmd.health cid j := by
  intro fuel
  induction fuel with
  | zero => intro i st c hc; simp [health_check_go] at hc
  | succ f ih =>
    intro i st c hc
    cases h : strContains (R.healthOut cid i) "has no defined healthcheck" with
    | true =>
      simp [health_check_go, h] at hc
      exact ⟨i, hc⟩
    | false =>
      simp only [health_check_go, h, Bool.false_eq_true, if_false,
        List.mem_cons] at hc
      rcases hc with hc | hc
      · exact ⟨i, hc⟩
      · exact ih (i + 1) _ c hc

theorem post_healthcheck_mem (oid nid status : String) (c : Cmd)
    (hc : c ∈ post_healthcheck oid nid status) :
    c = Cmd.rm oid ∨ c = Cmd.stop nid ∨ c = Cmd.start oid := by
  by_cases h1 : strContains status "NA" = true
  · simp [post_healthcheck, remove_old_container, h1] at hc
    exact Or.inl hc
  · by_cases h2 : strContains status "true" = true
    · simp [post_healthcheck, remove_old_container, h1, h2] at hc
      exact Or.inl hc
    · simp [post_healthcheck, remove_old_container, h1, h2] at hc
      rcases hc with hc | hc
      · exact Or.inr (Or.inl hc)
      · exact Or.inr (Or.inr hc)

/-- C10: when the start of the new container succeeds with output `s`, the
engine probes the healthcheck only at the first 12 characters of `s`, and
the commit/rollback decision only ever removes or starts the first 12
characters of the old container id and only ever stops either the old
container (the initial stop) or the first 12 characters of `s`. -/
theorem recreate_one_take12 (R : Runtime) (old cli s : String)
    (h : R.runOut cli = some s) :
    (∀ id i, Cmd.health id i ∈ (recreate_one R (old, cli)).1 →
      id = String.take s 12) ∧
    (∀ id, Cmd.rm id ∈ (recreate_one R (old, cli)).1 →
      id = String.take old 12) ∧
    (∀ id, Cmd.start id ∈ (recreate_one R (old, cli)).1 →
      id = String.take old 12) ∧
    (∀ id, Cmd.stop id ∈ (recreate_one R (old, cli)).1 →
      id = old ∨ id = String.take s 12) := by
  have htr : (recreate_one R (old, cli)).1 =
      Cmd.stop old :: Cmd.runD cli ::
        ((health_check R (String.take s 12)).2 ++
          post_healthcheck (String.take old 12) (String.take s 12)
            (health_check R (String.take s 12)).1) := by
    simp [recreate_one, h]
  rw [htr]
  refine ⟨?_, ?_, ?_, ?_⟩
  · intro id i hc
    simp only [List.mem_cons, List.mem_append] at hc
    rcases hc with hc | hc | hc | hc
    · simp at hc
    · simp at hc
    · obtain ⟨j, hj⟩ := health_check_go_mem R (String.take s 12) 3 0 "false" _ hc
      injection hj with hj1 hj2
    · rcases post_healthcheck_mem _ _ _ _ hc with he | he | he <;> simp at he
  · intro id hc
    simp only [List.mem_cons, List.mem_append] at hc
    rcases hc with hc | hc | hc | hc
    · simp at hc
    · simp at hc
    · obtain ⟨j, hj⟩ := health_check_go_mem R (String.take s 12) 3 0 "false" _ hc
      simp at hj
    · rcases post_healthcheck_mem _ _ _ _ hc with he | he | he
      · injection he with he1
      · simp at he
      · simp at he
  · intro id hc
    simp only [List.mem_cons, List.mem_append] at hc
    rcases hc with hc | hc | hc | hc
    · simp at hc
    · simp at hc
    · obtain ⟨j, hj⟩ := health_check_go_mem R (String.take s 12) 3 0 "false" _ hc
      simp at hj
    · rcases post_healthcheck_mem _ _ _ _ hc with he | he | he
      · simp at he
      · simp at he
      · injection he with he1
  · intro id hc
    simp only [List.mem_cons, List.mem_append] at hc
    rcases hc with hc | hc | hc | hc
    · left
      injection hc with hc1
    · simp at hc
    · obtain ⟨j, hj⟩ := health_check_go_mem R (String.take s 12) 3 0 "false" _ hc
      simp at hj
    · rcases post_healthcheck_mem _ _ _ _ hc with he | he | he
      · simp at he
      · right
        injection he with he1
      · simp at he

/-- The closed witness for C10's hypotheses: at a runtime whose start
output is an 18-character id (plus newline), the healthcheck probe of the
engine targets exactly its first 12 characters. -/
theorem recreate_one_take12_witness :
    "fedcba987654" = String.take "fedcba9876543210aa\n" 12 :=
  (recreate_one_take12 healthyRuntime "oldcontainerfullid" "img a b"
      "fedcba9876543210aa\n" rfl).1 "fedcba987654" 0 (by decide)

theorem spaces_concat (img : String) :
    "" ++ " " ++ "" ++ " " ++ "" ++ " " ++ "" ++ " " ++ img ++ " " ++ "" =
      "    " ++ img ++ " " := by
  apply String.ext
  have h1 : ("" : String).data = [] := rfl
  have h2 : (" " : String).data = [' '] := rfl
  have h4 : ("    " : String).data = [' ', ' ', ' ', ' '] := rfl
  simp [String.data_append, h1, h2, h4]

/-- C7: the command line built by `inspect_container` is the space-joined
concatenation of mount flags, env flags, port flags, restart-policy flag,
image reference, and original arguments, in that order; each category's
formatter yields the empty string on empty input, so when every category
is empty the line is just separator spaces around the image with no
stray `-v`, `-e`, `-p`, or `--restart=` text. -/
theorem container_cli_spec (ctn_image : String) (d : InspectData) :
    (container_cli ctn_image d =
      String.intercalate " "
        [format_mounts_cli d.Mounts, format_envs_cli d.Env,
         format_network_ports_cli d.Ports, format_restart_cli d.RestartPolicy,
         ctn_image, String.intercalate " " d.Args]) ∧
    (format_mounts_cli [] = "" ∧ format_envs_cli [] = "" ∧
      format_network_ports_cli [] = "" ∧
      format_restart_cli (RestartPolicyInfo.mk "") = "") ∧
    (d.Mounts = [] → envFilter d.Env = [] → d.Ports = [] →
      d.RestartPolicy.Name = "" → d.Args = [] →
      container_cli ctn_image d = "    " ++ ctn_image ++ " ") ∧
    (strContains (container_cli "nginx"
        (InspectData.mk [] [] ["HOME=/root"] (RestartPolicyInfo.mk "") []))
        "-v" = false ∧
      strContains (container_cli "nginx"
        (InspectData.mk [] [] ["HOME=/root"] (RestartPolicyInfo.mk "") []))
        "-e" = false ∧
      strContains (container_cli "nginx"
        (InspectData.mk [] [] ["HOME=/root"] (RestartPolicyInfo.mk "") []))
        "-p" = false ∧
      strContains (container_cli "nginx"
        (InspectData.mk [] [] ["HOME=/root"] (RestartPolicyInfo.mk "") []))
        "--restart=" = false) := by
  refine ⟨rfl, ⟨rfl, rfl, rfl, rfl⟩, ?_, by decide, by decide, by decide, by decide⟩
  intro hm he hp hr ha
  have h1 : format_mounts_cli d.Mounts = "" := by
    rw [hm]
    rfl
  have h2 : format_envs_cli d.Env = "" := by
    rw [format_envs_cli_eq, he]
    rfl
  have h3 : format_network_ports_cli d.Ports = "" := by
    rw [hp]
    rfl
  have h4 : format_restart_cli d.RestartPolicy = "" := by
    simp [format_restart_cli, hr]
  show format_mounts_cli d.Mounts ++ " " ++ format_envs_cli d.Env ++ " " ++
      format_network_ports_cli d.Ports ++ " " ++
      format_restart_cli d.RestartPolicy ++ " " ++ ctn_image ++ " " ++
      String.intercalate " " d.Args = "    " ++ ctn_image ++ " "
  rw [h1, h2, h3, h4, ha]
  exact spaces_concat ctn_image

/-- The closed witness for C7's empty-category hypotheses: a container
with no mounts, no ports, no restart policy, no arguments, and an env
list that filters to nothing renders to just the image between separator
spaces. -/
theorem container_cli_spec_witness :
    container_cli "nginx"
        (InspectData.mk [] [] ["HOME=/root"] (RestartPolicyInfo.mk "") []) =
      "    " ++ "nginx" ++ " " :=
  (container_cli_spec "nginx"
      (InspectData.mk [] [] ["HOME=/root"] (RestartPolicyInfo.mk "") [])).2.2.1
    rfl (by decide) rfl rfl rfl
